import Mathlib

/-!
Verification development for the AI-Doc-scraper extraction-plan execution
engine: a shallow embedding of the link-discovery algorithm, the content
extractor, the static/dynamic fetch scheduler and the plan-repair control
loop, together with theorems settling the specification claims.

Python strings are modelled as Lean `String`; all character-level
manipulation is carried out on `List Char` so that every definition
evaluates inside the kernel.  External collaborators (the CSS selector
engine, the HTML→markdown converter, the HTTP transport, the browser
renderer and the AI planner) are modelled by executable stand-ins whose
interfaces match how the scraper consumes them.
-/

namespace DocScraper

/-! ## Character-level string helpers (models of the Python `str` methods) -/

/-- Model of Python `s.startswith(pre)`. -/
def strStartsWith (s pre : String) : Bool := pre.toList.isPrefixOf s.toList

/-- Model of Python `s.endswith(suf)`. -/
def strEndsWith (s suf : String) : Bool := suf.toList.isSuffixOf s.toList

/-- Model of Python slicing `s[:n]`. -/
def takeChars (s : String) (n : Nat) : String := String.mk (s.toList.take n)

/-- True when `pat` occurs as a contiguous substring of `s`
(model of Python `pat in s`). -/
def containsSub (s pat : List Char) : Bool :=
  match s with
  | [] => pat.isEmpty
  | _ :: rest => pat.isPrefixOf s || containsSub rest pat

/-- The suffix of `s` after the first occurrence of `pat`
(empty when `pat` does not occur). -/
def afterSub (pat : List Char) : List Char → List Char
  | [] => []
  | c :: rest =>
    if pat.isPrefixOf (c :: rest) then (c :: rest).drop pat.length
    else afterSub pat rest

/-- Remove the first occurrence of `pat` from the list
(model of Python `s.replace(pat, "", 1)`). -/
def removeFirstList (pat : List Char) : List Char → List Char
  | [] => []
  | c :: rest =>
    if pat.isPrefixOf (c :: rest) then (c :: rest).drop pat.length
    else c :: removeFirstList pat rest

/-- Fuel-driven worker for `removeAllOcc`; the fuel is the length of the
input so the scan always terminates structurally. -/
def removeAllOccFuel (pat : List Char) : Nat → List Char → List Char
  | _, [] => []
  | 0, s => s
  | fuel + 1, c :: rest =>
    if !pat.isEmpty && pat.isPrefixOf (c :: rest) then
      removeAllOccFuel pat fuel ((c :: rest).drop pat.length)
    else c :: removeAllOccFuel pat fuel rest

/-- Remove every (left-to-right, non-overlapping) occurrence of `pat`
(model of Python `s.replace(pat, "")`). -/
def removeAllOcc (s pat : String) : String :=
  String.mk (removeAllOccFuel pat.toList s.toList.length s.toList)

/-- Strip leading and trailing underscores (model of Python `s.strip('_')`). -/
def stripUnderscores (s : String) : String :=
  String.mk (((s.toList.dropWhile (· == '_')).reverse.dropWhile (· == '_')).reverse)

/-- A character kept by the sanitiser `re.sub(r'[^a-zA-Z0-9_-]', '', ...)`. -/
def safeChar (c : Char) : Bool := c.isAlphanum || c == '_' || c == '-'

/-- Split a character list on a separator character
(model of Python `s.split(sep)` restricted to single-character separators). -/
def splitOnChar (sep : Char) : List Char → List (List Char)
  | [] => [[]]
  | c :: rest =>
    let r := splitOnChar sep rest
    if c == sep then [] :: r
    else
      match r with
      | [] => [[c]]
      | g :: gs => (c :: g) :: gs

/-! ## Code-point lexicographic order (model of Python string comparison) -/

/-- Lexicographic comparison of character lists by code point, the order
Python `sorted` uses on strings. -/
def lexLe : List Char → List Char → Bool
  | [], _ => true
  | _ :: _, [] => false
  | a :: as, b :: bs =>
    if a.toNat < b.toNat then true
    else if b.toNat < a.toNat then false
    else lexLe as bs

/-- The ordering relation `sorted` arranges discovered URLs by. -/
def strLeRel (s t : String) : Prop := lexLe s.toList t.toList = true

instance : DecidableRel strLeRel := fun s t => by unfold strLeRel; infer_instance

theorem lexLe_total (l m : List Char) : lexLe l m = true ∨ lexLe m l = true := by
  induction l generalizing m with
  | nil => left; rfl
  | cons a as ih =>
    cases m with
    | nil => right; rfl
    | cons b bs =>
      rcases Nat.lt_trichotomy a.toNat b.toNat with h | h | h
      · left; simp [lexLe, h]
      · rcases ih bs with h2 | h2
        · left; simp [lexLe, h, h2]
        · right; simp [lexLe, h.symm, h2]
      · right; simp [lexLe, h]

theorem lexLe_trans {l m k : List Char} (h1 : lexLe l m = true) (h2 : lexLe m k = true) :
    lexLe l k = true := by
  induction l generalizing m k with
  | nil => rfl
  | cons a as ih =>
    cases m with
    | nil => simp [lexLe] at h1
    | cons b bs =>
      cases k with
      | nil => simp [lexLe] at h2
      | cons c cs =>
        simp only [lexLe] at h1 h2 ⊢
        split at h1
        · next hab =>
          split at h2
          · next hbc => simp [Nat.lt_trans hab hbc]
          · next hbc =>
            split at h2
            · simp at h2
            · next hcb =>
              have hbc' : b.toNat = c.toNat := by omega
              simp [hbc' ▸ hab]
        · next hab =>
          split at h1
          · simp at h1
          · next hba =>
            have hab' : a.toNat = b.toNat := by omega
            split at h2
            · next hbc => simp [hab' ▸ hbc]
            · next hbc =>
              split at h2
              · simp at h2
              · next hcb =>
                have hbc' : b.toNat = c.toNat := by omega
                have hac : a.toNat = c.toNat := by omega
                simp [hac, ih h1 h2]

instance : IsTotal String strLeRel := ⟨fun s t => lexLe_total s.toList t.toList⟩

instance : IsTrans String strLeRel := ⟨fun _ _ _ => lexLe_trans⟩

/-! ## HTML model

The rendered markup BeautifulSoup parses is modelled as a tree of element
and text nodes; a parsed document is the list of its top-level nodes. -/

/-- A node of the parsed markup tree. -/
inductive Node where
  | elem (tag : String) (attrs : List (String × String)) (children : List Node)
  | text (s : String)

/-- A parsed document: the top-level nodes of the markup. -/
abbrev Html := List Node

/-- Model of the external CSS selector engine for the simple selectors the
plans use: a bare tag name, a `.class` selector (matched against the
space-separated `class` attribute) or an `#id` selector. -/
def matchesSelector (sel : String) (tag : String) (attrs : List (String × String)) : Bool :=
  if strStartsWith sel "#" then
    match attrs.lookup "id" with
    | some v => v == String.mk (sel.toList.drop 1)
    | none => false
  else if strStartsWith sel "." then
    match attrs.lookup "class" with
    | some v => (splitOnChar ' ' v.toList).contains (sel.toList.drop 1)
    | none => false
  else tag == sel

/-- Whether a node is an element matched by the selector. -/
def nodeMatches (sel : String) : Node → Bool
  | .text _ => false
  | .elem t a _ => matchesSelector sel t a

mutual
/-- First match of a selector at or below a node, in document (pre-)order. -/
def selectFirstNode (sel : String) : Node → Option Node
  | .text _ => none
  | .elem t a cs =>
    if matchesSelector sel t a then some (.elem t a cs) else selectFirstList sel cs
/-- First match of a selector in a node list, in document order
(model of BeautifulSoup `soup.select_one`). -/
def selectFirstList (sel : String) : List Node → Option Node
  | [] => none
  | n :: ns =>
    match selectFirstNode sel n with
    | some m => some m
    | none => selectFirstList sel ns
end

mutual
/-- All matches of a selector at or below a node, in document order. -/
def selectAllNode (sel : String) : Node → List Node
  | .text _ => []
  | .elem t a cs =>
    (if matchesSelector sel t a then [Node.elem t a cs] else []) ++ selectAllList sel cs
/-- All matches of a selector in a node list. -/
def selectAllList (sel : String) : List Node → List Node
  | [] => []
  | n :: ns => selectAllNode sel n ++ selectAllList sel ns
end

/-- All descendants of an element matched by the selector
(model of BeautifulSoup `tag.select`, which searches descendants only). -/
def selectAll (sel : String) : Node → List Node
  | .text _ => []
  | .elem _ _ cs => selectAllList sel cs

mutual
/-- The `href` values of hyperlink elements at or below a node, in document
order. -/
def findLinksNode : Node → List String
  | .text _ => []
  | .elem t a cs =>
    (if t == "a" then
      match a.lookup "href" with
      | some h => [h]
      | none => []
    else []) ++ findLinksList cs
/-- The `href` values of hyperlink elements in a node list. -/
def findLinksList : List Node → List String
  | [] => []
  | n :: ns => findLinksNode n ++ findLinksList ns
end

/-- The `href` values of all hyperlink descendants of a container
(model of `nav_container.find_all('a', href=True)`). -/
def findLinks : Node → List String
  | .text _ => []
  | .elem _ _ cs => findLinksList cs

mutual
/-- Remove from a node's subtree every strict descendant matched by the
selector (model of `for element in region.select(sel): element.decompose()`;
the region's root itself is never removed because `select` searches
descendants only). -/
def removeNoise (sel : String) : Node → Node
  | .text s => .text s
  | .elem t a cs => .elem t a (removeNoiseList sel cs)
/-- Worker for `removeNoise` on child lists: a matching child is dropped
with its whole subtree, a surviving child is pruned recursively. -/
def removeNoiseList (sel : String) : List Node → List Node
  | [] => []
  | c :: cs =>
    if nodeMatches sel c then removeNoiseList sel cs
    else removeNoise sel c :: removeNoiseList sel cs
end

mutual
/-- Model of the external HTML→markdown converter (`markdownify`): the
normalized text of a subtree is the concatenation of its text nodes. -/
def mdText : Node → String
  | .text s => s
  | .elem _ _ cs => mdTextList cs
/-- Worker for `mdText` on child lists. -/
def mdTextList : List Node → String
  | [] => ""
  | c :: cs => mdText c ++ mdTextList cs
end

/-- Serialisation of attributes back to markup source text. -/
def attrsString (attrs : List (String × String)) : String :=
  attrs.foldl (fun acc p => acc ++ " " ++ p.1 ++ "=" ++ "\"" ++ p.2 ++ "\"") ""

mutual
/-- Serialisation of a node back to the markup source text it was parsed
from, used to model the raw `rendered_html` string underlying a document. -/
def htmlString : Node → String
  | .text s => s
  | .elem t a cs => "<" ++ t ++ attrsString a ++ ">" ++ htmlStringList cs ++ "</" ++ t ++ ">"
/-- Serialisation of a node list. -/
def htmlStringList : List Node → String
  | [] => ""
  | n :: ns => htmlString n ++ htmlStringList ns
end

/-! ## URL model (models of `urllib.parse.urljoin` and `urlparse(...).path`)

Dot-segment normalisation and query-string merging are not modelled; the
scraper only feeds the functions scheme-qualified, host-relative or
directory-relative targets. -/

/-- Whether a URL carries an explicit scheme (`"://"` occurs in it). -/
def hasScheme (url : String) : Bool := containsSub url.toList "://".toList

/-- The scheme part of an absolute URL (the text before the first `':'`). -/
def schemeOf (url : String) : String := String.mk (url.toList.takeWhile (· != ':'))

/-- The `scheme://host` part of an absolute URL. -/
def hostPrefixOf (url : String) : String :=
  schemeOf url ++ "://" ++ String.mk ((afterSub "://".toList url.toList).takeWhile (· != '/'))

/-- The URL up to and including its last `'/'` (the directory a relative
link is resolved against). -/
def dirOf (url : String) : String :=
  String.mk ((url.toList.reverse.dropWhile (· != '/')).reverse)

/-- Model of `urllib.parse.urljoin(base, href)` for the target shapes the
scraper encounters: already-absolute URLs, scheme-relative (`//…`),
host-relative (`/…`) and directory-relative targets. -/
def urljoin (base href : String) : String :=
  if href = "" then base
  else if hasScheme href then href
  else if strStartsWith href "//" then schemeOf base ++ ":" ++ href
  else if strStartsWith href "/" then hostPrefixOf base ++ href
  else dirOf base ++ href

/-- Model of Python `absolute_url.split('#')[0]`: the URL before its first
fragment marker. -/
def stripFragment (s : String) : String := String.mk (s.toList.takeWhile (· != '#'))

/-- Model of `urllib.parse.urlparse(url).path`: the path component of the
URL, i.e. what follows the authority and precedes any query or fragment. -/
def urlPath (url : String) : String :=
  if hasScheme url then
    String.mk (((afterSub "://".toList url.toList).dropWhile (· != '/')).takeWhile
      (fun c => c != '?' && c != '#'))
  else
    String.mk (url.toList.takeWhile (fun c => c != '?' && c != '#'))

/-! ## The Locator Plan (`modules/config.py`) -/

/-- The Locator Plan: all configuration a scrape task needs
(`modules/config.py`, dataclass `Config`). -/
structure Config where
  project_name : String
  start_url : String
  base_url : String
  fetch_strategy : String
  nav_selector : String
  content_selector : String
  elements_to_remove : List String
  output_dir : String
deriving DecidableEq, Repr

/-- Construct a `Config` the way the dataclass does: `__post_init__`
derives the output directory from the project name. -/
def mkConfig (project_name start_url base_url fetch_strategy nav_selector content_selector :
    String) (elements_to_remove : List String) : Config :=
  ⟨project_name, start_url, base_url, fetch_strategy, nav_selector, content_selector,
    elements_to_remove, "scraped_docs_" ++ project_name⟩

/-- The Locator Mismatch Fault (`modules/scraper.py`,
`SelectorNotFoundError`): carries the failed selector and a bounded
snippet of the markup it failed against. -/
structure SelectorNotFoundError where
  message : String
  selector : String
  html_snippet : String
deriving DecidableEq, Repr

/-! ## Link Discovery and the Content Extractor (`modules/scraper.py`) -/

/-- Insertion into the accumulated URL set (Python `set.add`): the value is
appended only when not already present. -/
def setInsert (acc : List String) (u : String) : List String :=
  if u ∈ acc then acc else acc ++ [u]

/-- The per-link filtering loop of `get_all_doc_urls_from_html`: drop pure
fragment targets, resolve against the base URL, strip the fragment, and
keep only URLs that still have the base URL as a literal prefix. -/
def collectUrls (base : String) : List String → List String → List String
  | [], acc => acc
  | href :: rest, acc =>
    if strStartsWith href "#" then collectUrls base rest acc
    else if strStartsWith (stripFragment (urljoin base href)) base then
      collectUrls base rest (setInsert acc (stripFragment (urljoin base href)))
    else collectUrls base rest acc

/-- Model of Python `sorted(list(urls))`: sort by code-point lexicographic
order. -/
def sortUrls (l : List String) : List String := List.insertionSort strLeRel l

/-- Link Discovery (`get_all_doc_urls_from_html`): select the navigation
container; fail with a Locator Mismatch Fault carrying the selector and the
first 2000 characters of the markup when it matches nothing; otherwise
collect, filter, deduplicate and sort the hyperlink targets inside it. -/
def get_all_doc_urls_from_html (rendered_html : Html) (config : Config) :
    Except SelectorNotFoundError (List String) :=
  match selectFirstList config.nav_selector rendered_html with
  | none =>
    .error ⟨"未找到导航容器", config.nav_selector, takeChars (htmlStringList rendered_html) 2000⟩
  | some nav_container =>
    .ok (sortUrls (collectUrls config.base_url (findLinks nav_container) []))

/-- Artifact naming (`generate_safe_filename`): strip the base path from
the URL path, map separators to underscores, drop the `.html` suffix
token, strip underscores, keep only safe characters, default to `index`. -/
def generate_safe_filename (url : String) (config : Config) : String :=
  let path := String.mk (removeFirstList (urlPath config.base_url).toList (urlPath url).toList)
  let underscored := String.mk (path.toList.map (fun c => if c == '/' then '_' else c))
  let no_html := removeAllOcc underscored ".html"
  let stripped := stripUnderscores no_html
  let safe_name := String.mk (stripped.toList.filter safeChar)
  (if safe_name = "" then "index" else safe_name) ++ ".md"

/-- Apply the noise-removal locators in listed order to the content region. -/
def applyNoise (selectors : List String) (region : Node) : Node :=
  selectors.foldl (fun acc sel => removeNoise sel acc) region

/-- The Content Extractor (`clean_and_convert`): select the content region
(returning the empty result, after a logged warning, when it matches
nothing), remove every noise-locator match inside it, and convert the
remainder to normalized text. -/
def clean_and_convert (html_content : Html) (config : Config) : String :=
  match selectFirstList config.content_selector html_content with
  | none => ""
  | some main_content => mdText (applyNoise config.elements_to_remove main_content)

/-! ## Fetch Strategy Scheduler (`modules/scraper.py`) -/

/-- An HTTP response as the static strategy sees it: a status code and the
parsed body. `raise_for_status` raises exactly when the status is ≥ 400. -/
structure HttpResponse where
  status : Nat
  body : Html

/-- The outcome of processing one URL: the artifact written (filename and
markdown body), if any, and the number of warning messages logged for the
page. -/
structure PageResult where
  artifact : Option (String × String)
  warnings : Nat
deriving DecidableEq, Repr

/-- The static strategy's per-URL worker (`fetch_and_save_static`): a
non-success status raises inside the `try`, is caught, and logs one
warning; an empty extraction is skipped silently (though
`clean_and_convert` itself logs one warning when the content region is
missing); otherwise the artifact is written. -/
def fetch_and_save_static (fetch : String → HttpResponse) (url : String) (config : Config) :
    PageResult :=
  let response := fetch url
  if 400 ≤ response.status then ⟨none, 1⟩
  else
    let contentWarn :=
      if (selectFirstList config.content_selector response.body).isSome then 0 else 1
    let markdown_content := clean_and_convert response.body config
    if markdown_content = "" then ⟨none, contentWarn⟩
    else ⟨some (generate_safe_filename url config, markdown_content), contentWarn⟩

/-- The dynamic strategy's per-URL worker (`fetch_and_save_dynamic`): a
failed navigation logs one message and is skipped; an empty extraction
logs an explicit warning and is skipped; otherwise the artifact is
written. -/
def fetch_and_save_dynamic (render : String → Except String Html) (url : String)
    (config : Config) : PageResult :=
  match render url with
  | .error _ => ⟨none, 1⟩
  | .ok html =>
    let contentWarn := if (selectFirstList config.content_selector html).isSome then 0 else 1
    let markdown_content := clean_and_convert html config
    if markdown_content = "" then ⟨none, contentWarn + 1⟩
    else ⟨some (generate_safe_filename url config, markdown_content), contentWarn⟩

/-- The static batch: every discovered URL is processed independently
(`asyncio.gather` over one task per URL); one URL's outcome never affects
another's. -/
def execute_static (fetch : String → HttpResponse) (urls : List String) (config : Config) :
    List PageResult :=
  urls.map (fun url => fetch_and_save_static fetch url config)

/-- The dynamic batch: the single browser session visits the URLs strictly
in order. -/
def execute_dynamic (render : String → Except String Html) (urls : List String)
    (config : Config) : List PageResult :=
  urls.map (fun url => fetch_and_save_dynamic render url config)

/-- What one execution attempt produced: the Discovered URL Set and the
per-URL outcomes (empty when the scheduler returned early on an empty
set). -/
structure ScrapeOutcome where
  doc_urls : List String
  results : List PageResult
deriving DecidableEq, Repr

/-- The Fetch Strategy Scheduler (`execute_scrape`): run Link Discovery
(whose Locator Mismatch Fault propagates), then — mirroring the source —
log an error and return normally when the Discovered URL Set is empty,
otherwise run the strategy selected by the plan. -/
def execute_scrape (fetch : String → HttpResponse) (render : String → Except String Html)
    (rendered_html : Html) (config : Config) : Except SelectorNotFoundError ScrapeOutcome :=
  match get_all_doc_urls_from_html rendered_html config with
  | .error e => .error e
  | .ok doc_urls =>
    if doc_urls.isEmpty then .ok ⟨doc_urls, []⟩
    else if config.fetch_strategy == "dynamic" then
      .ok ⟨doc_urls, execute_dynamic render doc_urls config⟩
    else
      .ok ⟨doc_urls, execute_static fetch doc_urls config⟩

/-! ## AI planner (`modules/ai_planner.py`)

The generative-model calls are external collaborators; their parsed JSON
answers are modelled as the optional structured values below. -/

/-- The fields the planner's JSON answer supplies for a fresh plan. -/
structure PlanData where
  fetch_strategy : String
  nav_selector : String
  content_selector : String
  elements_to_remove : List String
deriving DecidableEq, Repr

/-- The fields the repair collaborator's JSON answer supplies. -/
structure CorrectionData where
  nav_selector : String
  content_selector : String
  elements_to_remove : List String
deriving DecidableEq, Repr

/-- Auto-mode planning (`plan_from_html`): on a parsable AI answer, build
the plan; the base URL is the start URL, given a trailing `'/'` when it
lacks one. -/
def plan_from_html (project_name start_url : String) (aiAnswer : Option PlanData) :
    Option Config :=
  aiAnswer.map fun d =>
    let base_url := if strEndsWith start_url "/" = false then start_url ++ "/" else start_url
    mkConfig project_name start_url base_url d.fetch_strategy d.nav_selector
      d.content_selector d.elements_to_remove

/-- Plan repair (`refine_and_correct_plan`): on a parsable AI answer,
overwrite exactly the three locator fields of the failed plan and return
it; every other field is left untouched. -/
def refine_and_correct_plan (failed_config : Config) (aiAnswer : Option CorrectionData) :
    Option Config :=
  aiAnswer.map fun d =>
    { failed_config with
        nav_selector := d.nav_selector
        content_selector := d.content_selector
        elements_to_remove := d.elements_to_remove }

/-! ## The Plan Repair Loop (`main.py`) -/

/-- How a run ended. -/
inductive RunStatus where
  | succeeded
  | failed
deriving DecidableEq, Repr

/-- Observable summary of one run of `main`'s attempt loop: terminal
status, whether project metadata was persisted, the plan used by each
execution attempt in order, and how many repair requests were issued. -/
structure RunTrace where
  status : RunStatus
  metadataSaved : Bool
  attemptConfigs : List Config
  repairCalls : Nat
deriving DecidableEq, Repr

/-- `MAX_ATTEMPTS` from `main.py`. -/
def MAX_ATTEMPTS : Nat := 2

/-- One unrolling of `for attempt in range(MAX_ATTEMPTS)` from `main.py`:
on success, metadata is saved and the run succeeds; on a Locator Mismatch
Fault the repair path is entered only in auto mode with attempts
remaining, a refused repair breaks out of the loop, and anything else
fails the run. -/
def attemptLoop (auto : Bool) (exec : Config → Except SelectorNotFoundError ScrapeOutcome)
    (ai : Config → SelectorNotFoundError → Option CorrectionData) :
    Nat → Nat → Config → RunTrace
  | 0, _, _ => ⟨.failed, false, [], 0⟩
  | fuel + 1, attempt, config =>
    match exec config with
    | .ok _ => ⟨.succeeded, true, [config], 0⟩
    | .error e =>
      if auto = true ∧ attempt < MAX_ATTEMPTS - 1 then
        match refine_and_correct_plan config (ai config e) with
        | some corrected_config =>
          let t := attemptLoop auto exec ai fuel (attempt + 1) corrected_config
          ⟨t.status, t.metadataSaved, config :: t.attemptConfigs, t.repairCalls + 1⟩
        | none => ⟨.failed, false, [config], 1⟩
      else ⟨.failed, false, [config], 0⟩

/-- The whole attempt loop, started at attempt 0 with `MAX_ATTEMPTS`
iterations available. -/
def runRepairLoop (auto : Bool) (exec : Config → Except SelectorNotFoundError ScrapeOutcome)
    (ai : Config → SelectorNotFoundError → Option CorrectionData) (config : Config) :
    RunTrace :=
  attemptLoop auto exec ai MAX_ATTEMPTS 0 config

/-- `main`'s phase 3 specialised to the real scheduler: each execution
attempt runs `execute_scrape` on the rendered entry page under the current
plan. -/
def runMain (fetch : String → HttpResponse) (render : String → Except String Html)
    (rendered_html : Html) (auto : Bool)
    (ai : Config → SelectorNotFoundError → Option CorrectionData) (config : Config) :
    RunTrace :=
  runRepairLoop auto (fun c => execute_scrape fetch render rendered_html c) ai config

/-! ## Concrete inputs used by the claim theorems and witnesses -/

/-- A rendered page whose navigation container matches but holds only one
out-of-scope link, so discovery finds zero in-scope URLs. -/
def c1Html : Html :=
  [.elem "nav" [("id", "nav")] [.elem "a" [("href", "https://other.example/p")] [.text "x"]]]

/-- The plan for the zero-discovery run. -/
def c1Cfg : Config := mkConfig "proj" "https://x/" "https://x/" "static" "#nav" "main" []

/-- A transport that would serve an empty page (never consulted in the
zero-discovery run). -/
def c1Fetch : String → HttpResponse := fun _ => ⟨200, []⟩

/-- A renderer that would serve an empty page (never consulted). -/
def c1Render : String → Except String Html := fun _ => .ok []

/-- A repair collaborator that always refuses (manual mode never calls it). -/
def c1Ai : Config → SelectorNotFoundError → Option CorrectionData := fun _ _ => none

/-- A page with a matching navigation container and two in-scope links. -/
def c2WHtml : Html :=
  [.elem "nav" [] [.elem "a" [("href", "b.html")] [], .elem "a" [("href", "a.html")] []]]

/-- The plan for the discovery-postcondition witness. -/
def c2WCfg : Config := mkConfig "p2" "https://x/" "https://x/" "static" "nav" "main" []

/-- A page with no navigation container at all. -/
def c3WHtml : Html := [.elem "div" [] [.text "body"]]

/-- The plan whose navigation locator matches nothing in `c3WHtml`. -/
def c3WCfg : Config := mkConfig "p3" "https://x/" "https://x/" "static" "sidebar" "main" []

/-- A fixed, human-authored plan for the manual-mode witness. -/
def c4Cfg : Config := mkConfig "p4" "https://x/" "https://x/" "static" "#missing" "main" []

/-- The fault the manual-mode execution attempt raises. -/
def c4Err : SelectorNotFoundError := ⟨"未找到导航容器", "#missing", "<body></body>"⟩

/-- An execution step that always raises the Locator Mismatch Fault. -/
def c4Exec : Config → Except SelectorNotFoundError ScrapeOutcome := fun _ => .error c4Err

/-- A repair collaborator (which manual mode must never consult). -/
def c4Ai : Config → SelectorNotFoundError → Option CorrectionData :=
  fun _ _ => some ⟨"nav", "main", []⟩

/-- The failing auto-mode plan for the repair-loop witness. -/
def c5Cfg : Config :=
  mkConfig "p5" "https://x/" "https://x/" "dynamic" "nav.old" "main.old" ["a.old"]

/-- The locator fields the repair collaborator answers with. -/
def c5Data : CorrectionData := ⟨"nav.new", "main.new", ["a.new"]⟩

/-- The fault raised under the original plan. -/
def c5Err : SelectorNotFoundError := ⟨"未找到导航容器", "nav.old", "<html></html>"⟩

/-- An execution step that raises under the original locator and succeeds
under any other. -/
def c5Exec : Config → Except SelectorNotFoundError ScrapeOutcome :=
  fun c => if c.nav_selector == "nav.old" then .error c5Err else .ok ⟨["https://x/a"], []⟩

/-- A repair collaborator that always answers with `c5Data`. -/
def c5Ai : Config → SelectorNotFoundError → Option CorrectionData := fun _ _ => some c5Data

/-- A partial page with no content region. -/
def c6Html : Html := [.elem "div" [] [.text "partial page"]]

/-- The plan whose content locator matches nothing in `c6Html`. -/
def c6Cfg : Config := mkConfig "p6" "https://x/" "https://x/" "static" "nav" "main" []

/-- A page whose content region matches but converts to empty text. -/
def c7EmptyMain : Html := [Node.elem "main" [] []]

/-- A page with no content region at all. -/
def c7NoMain : Html := [Node.elem "div" [] []]

/-- A page whose content region converts to the text `hello`. -/
def c7PageHtml : Html := [Node.elem "main" [] [Node.text "hello"]]

/-- The three URLs of the end-to-end static scenario. -/
def c7Urls : List String := ["https://x/a", "https://x/b", "https://x/c"]

/-- The scenario transport: URL #2 answers with a non-success status, the
others with a good page. -/
def c7Fetch : String → HttpResponse :=
  fun u => if u == "https://x/b" then ⟨404, []⟩ else ⟨200, c7PageHtml⟩

/-- The plan for the static-strategy scenario. -/
def c7Cfg : Config := mkConfig "p7" "https://x/" "https://x/" "static" "nav" "main" []

/-- A transport whose every response is a non-success status. -/
def c7BadFetch : String → HttpResponse := fun _ => ⟨404, []⟩

/-- A navigation container holding two distinct in-scope links whose
derived artifact filenames collide. -/
def c8Html : Html :=
  [.elem "nav" [("id", "nav")] [.elem "a" [("href", "https://x/a")] [],
    .elem "a" [("href", "https://x/a.html")] []]]

/-- The plan for the filename-collision run. -/
def c8Cfg : Config := mkConfig "p8" "https://x/" "https://x/" "static" "#nav" "main" []

/-- A page whose content region holds two disjoint noise elements around
the text to keep. -/
def c9Html : Html :=
  [.elem "main" [] [.elem "aside" [] [.text "noise"], .text "keep",
    .elem "footer" [] [.text "f"]]]

/-- The content region the locator selects in `c9Html`. -/
def c9Region : Node :=
  .elem "main" [] [.elem "aside" [] [.text "noise"], .text "keep",
    .elem "footer" [] [.text "f"]]

/-- The plan for the noise-removal witness. -/
def c9Cfg : Config := mkConfig "p9" "https://x/" "https://x/" "static" "nav" "main" []

/-! ## Helper lemmas -/

theorem stripFragment_no_hash (s : String) : ∀ c ∈ (stripFragment s).toList, c ≠ '#' := by
  intro c hc
  have hc' : c ∈ s.toList.takeWhile (· != '#') := hc
  simpa using List.mem_takeWhile_imp hc'

theorem setInsert_mem {acc : List String} {p u : String} (h : u ∈ setInsert acc p) :
    u ∈ acc ∨ u = p := by
  unfold setInsert at h
  split at h
  · exact .inl h
  · rcases List.mem_append.mp h with h | h
    · exact .inl h
    · exact .inr (List.mem_singleton.mp h)

theorem setInsert_nodup {acc : List String} {p : String} (h : acc.Nodup) :
    (setInsert acc p).Nodup := by
  unfold setInsert
  split
  · exact h
  · next hp =>
    refine List.Nodup.append h (List.nodup_singleton p) ?_
    intro a ha hb
    rw [List.mem_singleton] at hb
    subst hb
    exact hp ha

theorem collectUrls_prop (base : String) (hrefs : List String) :
    ∀ acc : List String,
      (∀ u ∈ acc, strStartsWith u base = true ∧ ∀ c ∈ u.toList, c ≠ '#') →
      ∀ u ∈ collectUrls base hrefs acc,
        strStartsWith u base = true ∧ ∀ c ∈ u.toList, c ≠ '#' := by
  induction hrefs with
  | nil => intro acc hacc; exact hacc
  | cons href rest ih =>
    intro acc hacc
    unfold collectUrls
    split
    · exact ih acc hacc
    · split
      · next hpage =>
        refine ih _ ?_
        intro u hu
        rcases setInsert_mem hu with h | h
        · exact hacc u h
        · subst h; exact ⟨hpage, stripFragment_no_hash _⟩
      · exact ih acc hacc

theorem collectUrls_nodup (base : String) (hrefs : List String) :
    ∀ acc : List String, acc.Nodup → (collectUrls base hrefs acc).Nodup := by
  induction hrefs with
  | nil => intro acc hacc; exact hacc
  | cons href rest ih =>
    intro acc hacc
    unfold collectUrls
    split
    · exact ih acc hacc
    · split
      · exact ih _ (setInsert_nodup hacc)
      · exact ih acc hacc

theorem nodeMatches_removeNoise (s s' : String) (n : Node) :
    nodeMatches s (removeNoise s' n) = nodeMatches s n := by
  cases n <;> rfl

mutual
theorem removeNoise_comm (a b : String) (n : Node) :
    removeNoise a (removeNoise b n) = removeNoise b (removeNoise a n) := by
  cases n with
  | text s => rfl
  | elem t attrs cs => simp [removeNoise, removeNoiseList_comm a b cs]
theorem removeNoiseList_comm (a b : String) (l : List Node) :
    removeNoiseList a (removeNoiseList b l) = removeNoiseList b (removeNoiseList a l) := by
  cases l with
  | nil => rfl
  | cons c cs =>
    by_cases hb : nodeMatches b c = true <;> by_cases ha : nodeMatches a c = true <;>
      simp [removeNoiseList, ha, hb, nodeMatches_removeNoise, removeNoise_comm a b c,
        removeNoiseList_comm a b cs]
end

theorem safeStem_shape (l : List Char) :
    ∃ stem, (if String.mk (l.filter safeChar) = "" then "index"
        else String.mk (l.filter safeChar)) ++ ".md" = stem ++ ".md" ∧ stem ≠ "" ∧
      ∀ c ∈ stem.toList, safeChar c = true := by
  by_cases h : String.mk (l.filter safeChar) = ""
  · exact ⟨"index", by rw [if_pos h], by decide, by decide⟩
  · refine ⟨String.mk (l.filter safeChar), by rw [if_neg h], h, ?_⟩
    intro c hc
    have hc' : c ∈ l.filter safeChar := hc
    exact (List.mem_filter.mp hc').2

/-! ## Claim theorems -/

/-- C1 (code bug): a run whose navigation locator matches but whose
Discovered URL Set is empty does NOT fail: `execute_scrape` logs an error
yet returns normally, so the repair loop records success and project
metadata is persisted — contradicting the spec's "zero discovery is
run-fatal, not a silent success". -/
theorem c1_zero_discovery_silent_success :
    (selectFirstList c1Cfg.nav_selector c1Html).isSome = true ∧
    get_all_doc_urls_from_html c1Html c1Cfg = .ok [] ∧
    execute_scrape c1Fetch c1Render c1Html c1Cfg = .ok ⟨[], []⟩ ∧
    (runMain c1Fetch c1Render c1Html false c1Ai c1Cfg).status = .succeeded ∧
    (runMain c1Fetch c1Render c1Html false c1Ai c1Cfg).metadataSaved = true :=
  ⟨rfl, rfl, rfl, rfl, rfl⟩

/-- C2: whenever the navigation locator matches at least one element,
discovery returns a deduplicated list in code-point lexicographic order,
every member of which has the plan's base URL as a literal prefix and
contains no `'#'` fragment. -/
theorem c2_discovery_sorted_dedup_in_scope (rendered_html : Html) (config : Config)
    (h : (selectFirstList config.nav_selector rendered_html).isSome = true) :
    ∃ urls, get_all_doc_urls_from_html rendered_html config = .ok urls ∧
      urls.Sorted strLeRel ∧ urls.Nodup ∧
      ∀ u ∈ urls, strStartsWith u config.base_url = true ∧ ∀ c ∈ u.toList, c ≠ '#' := by
  cases hnav : selectFirstList config.nav_selector rendered_html with
  | none => rw [hnav] at h; simp at h
  | some nav =>
    refine ⟨sortUrls (collectUrls config.base_url (findLinks nav) []), ?_, ?_, ?_, ?_⟩
    · unfold get_all_doc_urls_from_html
      rw [hnav]
    · exact List.sorted_insertionSort strLeRel _
    · exact ((List.perm_insertionSort strLeRel _).nodup_iff).mpr
        (collectUrls_nodup config.base_url (findLinks nav) [] List.nodup_nil)
    · intro u hu
      have hu' : u ∈ collectUrls config.base_url (findLinks nav) [] :=
        (List.perm_insertionSort strLeRel _).mem_iff.mp hu
      exact collectUrls_prop config.base_url (findLinks nav) [] (by simp) u hu'

/-- C2 witness: the postconditions hold at a concrete page with two
in-scope links. -/
theorem c2_discovery_witness :
    (selectFirstList c2WCfg.nav_selector c2WHtml).isSome = true ∧
    (∃ urls, get_all_doc_urls_from_html c2WHtml c2WCfg = .ok urls ∧
      urls.Sorted strLeRel ∧ urls.Nodup ∧
      ∀ u ∈ urls, strStartsWith u c2WCfg.base_url = true ∧ ∀ c ∈ u.toList, c ≠ '#') :=
  ⟨rfl, c2_discovery_sorted_dedup_in_scope c2WHtml c2WCfg rfl⟩

/-- C3: when the navigation locator matches zero elements, discovery fails
with a Locator Mismatch Fault carrying exactly the plan's navigation
locator and the first 2000 characters of the markup it failed against. -/
theorem c3_discovery_mismatch_fault (rendered_html : Html) (config : Config)
    (h : selectFirstList config.nav_selector rendered_html = none) :
    get_all_doc_urls_from_html rendered_html config =
      .error ⟨"未找到导航容器", config.nav_selector,
        takeChars (htmlStringList rendered_html) 2000⟩ := by
  unfold get_all_doc_urls_from_html
  rw [h]

/-- C3 witness: the fault at a concrete page with no navigation
container. -/
theorem c3_discovery_mismatch_witness :
    selectFirstList c3WCfg.nav_selector c3WHtml = none ∧
    get_all_doc_urls_from_html c3WHtml c3WCfg =
      .error ⟨"未找到导航容器", c3WCfg.nav_selector,
        takeChars (htmlStringList c3WHtml) 2000⟩ :=
  ⟨rfl, c3_discovery_mismatch_fault c3WHtml c3WCfg rfl⟩

/-- C4: in manual mode (a fixed, human-authored plan), a Locator Mismatch
Fault ends the run Failed after exactly one execution attempt, with no
repair request and no metadata persisted. -/
theorem c4_manual_mode_fails_without_repair
    (exec : Config → Except SelectorNotFoundError ScrapeOutcome)
    (ai : Config → SelectorNotFoundError → Option CorrectionData)
    (config : Config) (e : SelectorNotFoundError) (h : exec config = .error e) :
    runRepairLoop false exec ai config = ⟨.failed, false, [config], 0⟩ := by
  unfold runRepairLoop MAX_ATTEMPTS
  unfold attemptLoop
  rw [h]
  simp

/-- C4 witness: the single failed attempt at a concrete manual plan. -/
theorem c4_manual_mode_witness :
    c4Exec c4Cfg = .error c4Err ∧
    runRepairLoop false c4Exec c4Ai c4Cfg = ⟨.failed, false, [c4Cfg], 0⟩ :=
  ⟨rfl, c4_manual_mode_fails_without_repair c4Exec c4Ai c4Cfg c4Err rfl⟩

/-- C5: when the repair collaborator answers, the second attempt runs under
a plan carrying exactly the collaborator's three locator fields while the
fetch strategy, project identifier, start URL, base URL and output location
are unchanged, and the total number of attempts never exceeds
`MAX_ATTEMPTS` (two). -/
theorem c5_repair_applies_locator_fields_only
    (exec : Config → Except SelectorNotFoundError ScrapeOutcome)
    (ai : Config → SelectorNotFoundError → Option CorrectionData)
    (config : Config) (e : SelectorNotFoundError) (d : CorrectionData)
    (h1 : exec config = .error e) (h2 : ai config e = some d) :
    ∃ corrected, refine_and_correct_plan config (ai config e) = some corrected ∧
      (runRepairLoop true exec ai config).attemptConfigs = [config, corrected] ∧
      corrected.nav_selector = d.nav_selector ∧
      corrected.content_selector = d.content_selector ∧
      corrected.elements_to_remove = d.elements_to_remove ∧
      corrected.fetch_strategy = config.fetch_strategy ∧
      corrected.project_name = config.project_name ∧
      corrected.start_url = config.start_url ∧
      corrected.base_url = config.base_url ∧
      corrected.output_dir = config.output_dir ∧
      (runRepairLoop true exec ai config).repairCalls = 1 ∧
      (runRepairLoop true exec ai config).attemptConfigs.length ≤ MAX_ATTEMPTS := by
  have hsecond : ∀ c : Config, (attemptLoop true exec ai 1 1 c).attemptConfigs = [c] ∧
      (attemptLoop true exec ai 1 1 c).repairCalls = 0 := by
    intro c
    unfold attemptLoop
    cases hexec : exec c with
    | ok v => simp
    | error e2 => simp [MAX_ATTEMPTS]
  have hkey : (runRepairLoop true exec ai config).attemptConfigs =
      [config, { config with
        nav_selector := d.nav_selector
        content_selector := d.content_selector
        elements_to_remove := d.elements_to_remove }] ∧
      (runRepairLoop true exec ai config).repairCalls = 1 := by
    unfold runRepairLoop MAX_ATTEMPTS
    unfold attemptLoop
    rw [h1]
    simp [refine_and_correct_plan, h2, MAX_ATTEMPTS, hsecond]
  refine ⟨{ config with
      nav_selector := d.nav_selector
      content_selector := d.content_selector
      elements_to_remove := d.elements_to_remove },
    by rw [h2]; rfl, hkey.1, rfl, rfl, rfl, rfl, rfl, rfl, rfl, rfl, hkey.2, ?_⟩
  rw [hkey.1]
  simp [MAX_ATTEMPTS]

/-- C5 witness: the corrected locator is used by the second attempt at a
concrete failing plan and collaborator answer. -/
theorem c5_repair_witness :
    c5Exec c5Cfg = .error c5Err ∧ c5Ai c5Cfg c5Err = some c5Data ∧
    (∃ corrected, refine_and_correct_plan c5Cfg (c5Ai c5Cfg c5Err) = some corrected ∧
      (runRepairLoop true c5Exec c5Ai c5Cfg).attemptConfigs = [c5Cfg, corrected] ∧
      corrected.nav_selector = c5Data.nav_selector ∧
      corrected.content_selector = c5Data.content_selector ∧
      corrected.elements_to_remove = c5Data.elements_to_remove ∧
      corrected.fetch_strategy = c5Cfg.fetch_strategy ∧
      corrected.project_name = c5Cfg.project_name ∧
      corrected.start_url = c5Cfg.start_url ∧
      corrected.base_url = c5Cfg.base_url ∧
      corrected.output_dir = c5Cfg.output_dir ∧
      (runRepairLoop true c5Exec c5Ai c5Cfg).repairCalls = 1 ∧
      (runRepairLoop true c5Exec c5Ai c5Cfg).attemptConfigs.length ≤ MAX_ATTEMPTS) :=
  ⟨rfl, rfl, c5_repair_applies_locator_fields_only c5Exec c5Ai c5Cfg c5Err c5Data rfl rfl⟩

/-- C6: a page whose content-region locator matches nothing extracts to the
empty result without raising any fault; the scheduler records it as a
warned skip and the batch still processes every URL. -/
theorem c6_missing_content_region_soft_skip (html : Html) (config : Config)
    (fetch : String → HttpResponse) (urls : List String) (url : String)
    (h : selectFirstList config.content_selector html = none) :
    clean_and_convert html config = "" ∧
    fetch_and_save_static (fun _ => ⟨200, html⟩) url config = ⟨none, 1⟩ ∧
    (execute_static fetch urls config).length = urls.length := by
  have hclean : clean_and_convert html config = "" := by
    unfold clean_and_convert
    rw [h]
  refine ⟨hclean, ?_, by simp [execute_static]⟩
  unfold fetch_and_save_static
  simp [h, hclean]

/-- C6 witness: the soft skip at a concrete partial page. -/
theorem c6_missing_content_region_witness :
    selectFirstList c6Cfg.content_selector c6Html = none ∧
    (clean_and_convert c6Html c6Cfg = "" ∧
      fetch_and_save_static (fun _ => ⟨200, c6Html⟩) "https://x/p" c6Cfg = ⟨none, 1⟩ ∧
      (execute_static (fun _ => ⟨200, c6Html⟩)
        ["https://x/p", "https://x/q"] c6Cfg).length =
        (["https://x/p", "https://x/q"] : List String).length) :=
  ⟨rfl, c6_missing_content_region_soft_skip c6Html c6Cfg
    (fun _ => ⟨200, c6Html⟩) ["https://x/p", "https://x/q"] "https://x/p" rfl⟩

/-- C7 counterexample: a page whose content region matches but converts to
empty text is skipped with ZERO logged warnings, refuting "an empty
extraction result is skipped with a warning" for the static strategy. -/
theorem c7_silent_empty_skip_counterexample :
    (selectFirstList c7Cfg.content_selector c7EmptyMain).isSome = true ∧
    clean_and_convert c7EmptyMain c7Cfg = "" ∧
    fetch_and_save_static (fun _ => ⟨200, c7EmptyMain⟩) "https://x/a" c7Cfg = ⟨none, 0⟩ :=
  ⟨rfl, rfl, rfl⟩

/-- C7 amended: under the static strategy a non-success status is skipped
with one recorded warning; an empty extraction is skipped — with a warning
when the content region is missing, silently when the region matched but
converted to empty text; per-URL faults never shrink the batch; and the
3-URL scenario with one non-success fetch writes exactly 2 artifacts and
logs exactly 1 warning. -/
theorem c7_static_per_url_behavior (fetch : String → HttpResponse) (config : Config)
    (url : String) (h : 400 ≤ (fetch url).status) :
    fetch_and_save_static fetch url config = ⟨none, 1⟩ ∧
    ((execute_static c7Fetch c7Urls c7Cfg).filterMap (fun r => r.artifact)).length = 2 ∧
    ((execute_static c7Fetch c7Urls c7Cfg).map (fun r => r.warnings)).sum = 1 ∧
    (execute_static c7Fetch c7Urls c7Cfg).length = c7Urls.length ∧
    fetch_and_save_static (fun _ => ⟨200, c7NoMain⟩) "https://x/a" c7Cfg = ⟨none, 1⟩ := by
  refine ⟨?_, rfl, rfl, rfl, rfl⟩
  unfold fetch_and_save_static
  rw [if_pos h]

/-- C7 witness: the amended behaviour at a concrete all-404 transport. -/
theorem c7_static_witness :
    400 ≤ (c7BadFetch "https://x/a").status ∧
    (fetch_and_save_static c7BadFetch "https://x/a" c7Cfg = ⟨none, 1⟩ ∧
      ((execute_static c7Fetch c7Urls c7Cfg).filterMap (fun r => r.artifact)).length = 2 ∧
      ((execute_static c7Fetch c7Urls c7Cfg).map (fun r => r.warnings)).sum = 1 ∧
      (execute_static c7Fetch c7Urls c7Cfg).length = c7Urls.length ∧
      fetch_and_save_static (fun _ => ⟨200, c7NoMain⟩) "https://x/a" c7Cfg = ⟨none, 1⟩) :=
  ⟨by decide, c7_static_per_url_behavior c7BadFetch c7Cfg "https://x/a" (by decide)⟩

/-- C8 counterexample: two distinct URLs of one Discovered URL Set whose
derived artifact filenames coincide, so the later write overwrites the
earlier within the same run. -/
theorem c8_filename_collision_counterexample :
    get_all_doc_urls_from_html c8Html c8Cfg = .ok ["https://x/a", "https://x/a.html"] ∧
    ("https://x/a" : String) ≠ "https://x/a.html" ∧
    generate_safe_filename "https://x/a" c8Cfg = generate_safe_filename "https://x/a.html" c8Cfg :=
  ⟨rfl, by decide, rfl⟩

/-- C8 amended: filenames are a deterministic function of the URL, always a
nonempty stem of safe-alphabet characters followed by `.md` (`index.md`
when the derivation is empty) — but the derivation is not injective over
distinct URLs, so collisions overwrite. -/
theorem c8_filename_shape (url : String) (config : Config) :
    ∃ stem, generate_safe_filename url config = stem ++ ".md" ∧ stem ≠ "" ∧
      ∀ c ∈ stem.toList, safeChar c = true := by
  unfold generate_safe_filename
  exact safeStem_shape _

/-- C9: for a content region in which two noise locators match disjoint
element sets, extraction with noise list `[A, B]` yields the same surviving
content as with `[B, A]`. -/
theorem c9_noise_removal_order_independent (html : Html) (config : Config)
    (selA selB : String) (region : Node)
    (hregion : selectFirstList config.content_selector html = some region)
    (hdisj : ∀ m ∈ selectAll selA region, nodeMatches selB m = false) :
    clean_and_convert html { config with elements_to_remove := [selA, selB] } =
    clean_and_convert html { config with elements_to_remove := [selB, selA] } := by
  have h1 : clean_and_convert html { config with elements_to_remove := [selA, selB] } =
      mdText (removeNoise selB (removeNoise selA region)) := by
    unfold clean_and_convert
    rw [show selectFirstList
      ({ config with elements_to_remove := [selA, selB] } : Config).content_selector html =
      some region from hregion]
    rfl
  have h2 : clean_and_convert html { config with elements_to_remove := [selB, selA] } =
      mdText (removeNoise selA (removeNoise selB region)) := by
    unfold clean_and_convert
    rw [show selectFirstList
      ({ config with elements_to_remove := [selB, selA] } : Config).content_selector html =
      some region from hregion]
    rfl
  rw [h1, h2, removeNoise_comm]

/-- C9 witness: order independence at a concrete region with two disjoint
noise locators. -/
theorem c9_noise_removal_witness :
    selectFirstList c9Cfg.content_selector c9Html = some c9Region ∧
    (∀ m ∈ selectAll "aside" c9Region, nodeMatches "footer" m = false) ∧
    clean_and_convert c9Html { c9Cfg with elements_to_remove := ["aside", "footer"] } =
      clean_and_convert c9Html { c9Cfg with elements_to_remove := ["footer", "aside"] } := by
  have hdisj : ∀ m ∈ selectAll "aside" c9Region, nodeMatches "footer" m = false := by
    intro m hm
    have hm' : m ∈ [Node.elem "aside" [] [Node.text "noise"]] := hm
    rw [List.mem_singleton] at hm'
    subst hm'
    rfl
  exact ⟨rfl, hdisj,
    c9_noise_removal_order_independent c9Html c9Cfg "aside" "footer" c9Region rfl hdisj⟩

/-- C10: a successful auto-mode planning call derives the base URL from the
start URL by appending a single `/` exactly when one is missing; a start
URL naming a page (like `index.html`) therefore yields a scope boundary
that the page's sibling links cannot match. -/
theorem c10_auto_plan_base_url (project_name start_url : String) (d : PlanData) :
    (plan_from_html project_name start_url (some d)).map Config.base_url =
      some (if strEndsWith start_url "/" = true then start_url else start_url ++ "/") ∧
    (plan_from_html project_name "https://x/docs/index.html" (some d)).map Config.base_url =
      some "https://x/docs/index.html/" ∧
    strStartsWith "https://x/docs/a.html" "https://x/docs/index.html/" = false := by
  refine ⟨?_, rfl, rfl⟩
  cases h : strEndsWith start_url "/" with
  | true => simp [plan_from_html, mkConfig, h]
  | false => simp [plan_from_html, mkConfig, h]

end DocScraper
